import Mathlib

/-!
Verification of the Over Protocol Python service layer
(`python-services/main.py`), a FastAPI façade over a web3 RPC handle.

The five HTTP operations are shallowly embedded as Lean functions over an
abstract RPC handle `W3`.  The handle's remote getters (`block_number`,
`gas_price`, `get_balance`, `get_block`, `eth.estimate_gas`) are modelled
as `Except String` valued fields: `.ok v` means the remote call returned
`v`, `.error m` means the web3 layer raised an exception whose `str()` is
`m`.  The local helpers `is_address` and `to_wei` (pure / parsing, no
remote traffic) are likewise fields.  Each endpoint returns its result
paired with the list of remote RPC calls it issued, so that "no remote
call is attempted" is a provable statement.

Python exception semantics are embedded faithfully: every handler body
runs inside `try: ... except Exception as e: raise HTTPException(500,
str(e))`, and `fastapi.HTTPException` is itself a subclass of
`Exception`, so an `HTTPException(400, ...)` raised inside the `try`
block is caught and rewrapped as a 500 whose detail is
`str(e) = f"{status_code}: {detail}"` (starlette's `__str__`).
Integer true division (`/`) is modelled on `ℚ`; a zero divisor raises
`ZeroDivisionError`, whose `str()` for `int / int` is
"division by zero".  `web3.from_wei(_, 'ether')` divides by 10^18 inside
a `decimal` context of precision 999, which is exact for all on-chain
quantities; it is modelled as exact division on `ℚ`, and — where the
*string* of the result is returned — by the `decimal` coefficient /
exponent normal form and Python's `Decimal.__str__` algorithm.
-/

/-- The fixed RPC URL constant `OVER_PROTOCOL_RPC` of the source. -/
def OVER_PROTOCOL_RPC : String := "https://rpc.overprotocol.com"

/-- The fixed chain-id constant `CHAIN_ID` of the source. -/
def CHAIN_ID : Nat := 54176

/-- Detail string of the 503 raised by every non-health endpoint when the
handle is absent or the connectivity probe fails. -/
def NOT_CONNECTED : String := "Not connected to Over Protocol"

/-- Detail string of the `HTTPException(400)` raised for a malformed
address in `check_balance` and `estimate_gas`. -/
def INVALID_ADDRESS : String := "Invalid address format"

/-- `str(ZeroDivisionError)` for Python `int / int` with zero divisor. -/
def DIV_BY_ZERO : String := "division by zero"

deriving instance DecidableEq for Except

/-- A block as returned by `w3.eth.get_block`: the fields the service
reads (`number`, `timestamp`, `transactions`, `gasLimit`, `gasUsed`). -/
structure Block where
  number : Nat
  timestamp : Nat
  transactions : List String
  gasLimit : Nat
  gasUsed : Nat
deriving DecidableEq

/-- The web3 RPC handle.  Remote getters are `Except String` valued:
`.error m` models the underlying library raising an exception with
message `m`.  `is_address` (pure format/checksum validation) and
`to_wei _ 'ether'` (decimal-string parsing and scaling by 10^18,
restricted to the non-negative amounts the spec's data model describes)
are local library helpers, abstracted as fields of the handle. -/
structure W3 where
  is_connected : Bool
  block_number : Except String Nat
  gas_price : Except String Nat
  get_balance : String → Except String Nat
  get_block_latest : Except String Block
  get_block : Nat → Except String Block
  estimate_gas : String → String → Nat → Except String Nat
  is_address : String → Bool
  to_wei : String → Except String Nat

/-- Body of `POST /balance/check`. -/
structure BalanceRequest where
  address : String
deriving DecidableEq

/-- Body of `POST /transaction/estimate-gas`. -/
structure TransactionRequest where
  from_address : String
  to_address : String
  amount : String
deriving DecidableEq

/-- A Python exception live inside a handler's `try` block: either a
`fastapi.HTTPException` or any other exception carrying a message. -/
inductive PyExc where
  | http (status_code : Nat) (detail : String)
  | err (msg : String)
deriving DecidableEq

/-- Python `str(e)`.  For starlette/fastapi `HTTPException` this is
`f"{status_code}: {detail}"`; for other exceptions it is the message. -/
def strExc : PyExc → String
  | .http status_code detail => toString status_code ++ ": " ++ detail
  | .err m => m

/-- An HTTP error response produced via `raise HTTPException(...)` that
escapes the handler: status code and detail string. -/
structure HTTPError where
  status_code : Nat
  detail : String
deriving DecidableEq

/-- The remote RPC calls the service can issue, for tracing. -/
inductive RpcCall where
  | blockNumber
  | gasPrice
  | getBalance (address : String)
  | getBlockLatest
  | getBlock (n : Nat)
  | estimateGas (from_address to_address : String) (value : Nat)
deriving DecidableEq

/-- The `try: ... except Exception as e: raise HTTPException(500, str(e))`
wrapper common to the four non-health handlers.  Any `PyExc` escaping the
body — a remote-layer exception, the in-body `HTTPException(400)`, a
`ZeroDivisionError` — becomes a 500 whose detail is `str(e)`. -/
def tryWrap {α : Type} : Except PyExc α × List RpcCall → Except HTTPError α × List RpcCall
  | (.ok v, t) => (.ok v, t)
  | (.error e, t) => (.error { status_code := 500, detail := strExc e }, t)

/-- Status code of an endpoint outcome, `none` on success. -/
def httpStatus {α : Type} : Except HTTPError α → Option Nat
  | .ok _ => none
  | .error e => some e.status_code

/-- Response of `GET /health`. -/
structure HealthResp where
  status : String
  over_protocol_connected : Bool
  chain_id : Nat
deriving DecidableEq

/-- Response of `GET /network/info`.  `gas_price_gwei` holds the value of
`w3.from_wei(gas_price, 'gwei')`, i.e. wei divided by 10^9. -/
structure NetworkInfoResp where
  chain_id : Nat
  latest_block : Nat
  gas_price_gwei : ℚ
  rpc_url : String
deriving DecidableEq

/-- Response of `POST /balance/check`.  `balance_over` and `balance_wei`
are the `str(...)` forms the handler returns. -/
structure BalanceResp where
  address : String
  balance_over : String
  balance_wei : String
  timestamp : Nat
deriving DecidableEq

/-- Response of `POST /transaction/estimate-gas`.  The three `_gwei` /
`_over` fields hold the `from_wei` conversions (division by 10^9 resp.
10^18). -/
structure GasResp where
  gas_estimate : Nat
  gas_price_gwei : ℚ
  total_cost_over : ℚ
  transaction_cost_over : ℚ
deriving DecidableEq

/-- Response of `GET /analytics/network-stats`. -/
structure AnalyticsResp where
  latest_block_number : Nat
  latest_block_timestamp : Nat
  latest_block_transactions : Nat
  average_block_time_seconds : Int
  gas_limit : Nat
  gas_used : Nat
  gas_utilization_percent : ℚ
deriving DecidableEq

/-- `w3.from_wei(n, 'gwei')` as an exact rational: `n / 10^9`. -/
def from_wei_gwei_q (n : Nat) : ℚ := (n : ℚ) / 10 ^ 9

/-- `w3.from_wei(n, 'ether')` as an exact rational: `n / 10^18`. -/
def from_wei_ether_q (n : Nat) : ℚ := (n : ℚ) / 10 ^ 18

/-- Fuel-bounded count of trailing decimal zeros: `fuel ≥ n` makes the
count exact, since `n / 10` strictly decreases. -/
def tzAux : Nat → Nat → Nat
  | 0, _ => 0
  | fuel + 1, n => if n ≠ 0 ∧ n % 10 = 0 then tzAux fuel (n / 10) + 1 else 0

/-- Number of trailing decimal zeros of `n` (the largest `k` with
`10^k ∣ n`, and `0` for `n = 0`). -/
def tz (n : Nat) : Nat := tzAux n n

/-- Coefficient/exponent normal form of `Decimal(n) / Decimal(10^18)` for
`n > 0`, per the decimal arithmetic divide rule: the exact quotient is
expressed with exponent as close to the ideal exponent 0 as possible.
If `n` has at least 18 trailing zeros the quotient is the integer
`n / 10^18` at exponent 0; otherwise the coefficient keeps all
significant digits `n / 10^tz n` at exponent `tz n - 18`. -/
def from_wei_ether_dec (n : Nat) : Nat × Int :=
  let t := tz n
  if 18 ≤ t then (n / 10 ^ 18, 0) else (n / 10 ^ t, (t : Int) - 18)

/-- Python `Decimal.__str__` for a non-negative finite value with
coefficient `c` and exponent `e`: positional notation when `e ≤ 0` and
the adjusted exponent is at least `-6`, scientific notation otherwise
(with an explicit sign on the printed exponent). -/
def decStr (c : Nat) (e : Int) : String :=
  let ds := toString c
  let n := ds.length
  let adjusted : Int := e + (n : Int) - 1
  if e ≤ 0 ∧ -6 ≤ adjusted then
    if e = 0 then ds
    else if (n : Int) > -e then
      ds.take (n - (-e).toNat) ++ "." ++ ds.drop (n - (-e).toNat)
    else
      "0." ++ String.mk (List.replicate ((-e).toNat - n) '0') ++ ds
  else
    ds.take 1 ++ (if 1 < n then "." ++ ds.drop 1 else "") ++ "E" ++
      (if 0 ≤ adjusted then "+" else "") ++ toString adjusted

/-- `str(w3.from_wei(n, 'ether'))`: `from_wei` returns the int `0` when
`n = 0` (so `str` gives "0"), and otherwise the `Decimal` quotient whose
string follows `decStr` of its normal form. -/
def from_wei_ether_str (n : Nat) : String :=
  if n = 0 then "0"
  else decStr (from_wei_ether_dec n).1 (from_wei_ether_dec n).2

/-- `GET /health`: always returns; the connected flag is
`w3.is_connected() if w3 else False` and `chain_id` is the constant. -/
def health_check (w3? : Option W3) : HealthResp :=
  { status := "healthy"
    over_protocol_connected := match w3? with
      | some w3 => w3.is_connected
      | none => false
    chain_id := CHAIN_ID }

/-- Body of the `try` block of `GET /network/info`: read
`w3.eth.block_number` and `w3.eth.gas_price`, convert the gas price to
gwei. -/
def get_network_info_body (w3 : W3) : Except PyExc NetworkInfoResp × List RpcCall :=
  match w3.block_number with
  | .error m => (.error (.err m), [.blockNumber])
  | .ok latest_block =>
    match w3.gas_price with
    | .error m => (.error (.err m), [.blockNumber, .gasPrice])
    | .ok gas_price =>
      (.ok { chain_id := CHAIN_ID
             latest_block := latest_block
             gas_price_gwei := from_wei_gwei_q gas_price
             rpc_url := OVER_PROTOCOL_RPC },
       [.blockNumber, .gasPrice])

/-- `GET /network/info`: 503 when the handle is absent or disconnected,
otherwise the body under the 500-rewrapping `except`. -/
def get_network_info (w3? : Option W3) : Except HTTPError NetworkInfoResp × List RpcCall :=
  match w3? with
  | none => (.error { status_code := 503, detail := NOT_CONNECTED }, [])
  | some w3 =>
    if w3.is_connected then tryWrap (get_network_info_body w3)
    else (.error { status_code := 503, detail := NOT_CONNECTED }, [])

/-- Body of the `try` block of `POST /balance/check`: the address-format
check raises `HTTPException(400)` (inside the `try`!), then the balance
and the latest block are fetched and both string forms are produced. -/
def check_balance_body (w3 : W3) (request : BalanceRequest) :
    Except PyExc BalanceResp × List RpcCall :=
  if ¬ w3.is_address request.address then
    (.error (.http 400 INVALID_ADDRESS), [])
  else
    match w3.get_balance request.address with
    | .error m => (.error (.err m), [.getBalance request.address])
    | .ok balance_wei =>
      match w3.get_block_latest with
      | .error m => (.error (.err m), [.getBalance request.address, .getBlockLatest])
      | .ok blk =>
        (.ok { address := request.address
               balance_over := from_wei_ether_str balance_wei
               balance_wei := toString balance_wei
               timestamp := blk.timestamp },
         [.getBalance request.address, .getBlockLatest])

/-- `POST /balance/check`: 503 guard, then the body under the
500-rewrapping `except`. -/
def check_balance (w3? : Option W3) (request : BalanceRequest) :
    Except HTTPError BalanceResp × List RpcCall :=
  match w3? with
  | none => (.error { status_code := 503, detail := NOT_CONNECTED }, [])
  | some w3 =>
    if w3.is_connected then tryWrap (check_balance_body w3 request)
    else (.error { status_code := 503, detail := NOT_CONNECTED }, [])

/-- Body of the `try` block of `POST /transaction/estimate-gas`: address
checks raise `HTTPException(400)` inside the `try`; `to_wei` may raise a
parse error; the gas estimate and gas price are fetched remotely and
`total_cost_wei = gas_estimate * gas_price + amount_wei` is computed. -/
def estimate_gas_body (w3 : W3) (request : TransactionRequest) :
    Except PyExc GasResp × List RpcCall :=
  if ¬ w3.is_address request.from_address ∨ ¬ w3.is_address request.to_address then
    (.error (.http 400 INVALID_ADDRESS), [])
  else
    match w3.to_wei request.amount with
    | .error m => (.error (.err m), [])
    | .ok amount_wei =>
      match w3.estimate_gas request.from_address request.to_address amount_wei with
      | .error m =>
        (.error (.err m), [.estimateGas request.from_address request.to_address amount_wei])
      | .ok gas_estimate =>
        match w3.gas_price with
        | .error m =>
          (.error (.err m),
           [.estimateGas request.from_address request.to_address amount_wei, .gasPrice])
        | .ok gas_price =>
          let total_cost_wei := gas_estimate * gas_price + amount_wei
          (.ok { gas_estimate := gas_estimate
                 gas_price_gwei := from_wei_gwei_q gas_price
                 total_cost_over := from_wei_ether_q total_cost_wei
                 transaction_cost_over := from_wei_ether_q (gas_estimate * gas_price) },
           [.estimateGas request.from_address request.to_address amount_wei, .gasPrice])

/-- `POST /transaction/estimate-gas`: 503 guard, then the body under the
500-rewrapping `except`. -/
def estimate_gas (w3? : Option W3) (request : TransactionRequest) :
    Except HTTPError GasResp × List RpcCall :=
  match w3? with
  | none => (.error { status_code := 503, detail := NOT_CONNECTED }, [])
  | some w3 =>
    if w3.is_connected then tryWrap (estimate_gas_body w3 request)
    else (.error { status_code := 503, detail := NOT_CONNECTED }, [])

/-- The response dict of the analytics handler, built from the latest
block and the computed `block_time`.  Evaluating
`latest['gasUsed'] / latest['gasLimit']` with a zero `gasLimit` raises
`ZeroDivisionError` before the dict is returned; otherwise the true
division is exact on `ℚ`. -/
def mkAnalyticsResp (latest : Block) (block_time : Int) : Except PyExc AnalyticsResp :=
  if latest.gasLimit = 0 then .error (.err DIV_BY_ZERO)
  else
    .ok { latest_block_number := latest.number
          latest_block_timestamp := latest.timestamp
          latest_block_transactions := latest.transactions.length
          average_block_time_seconds := block_time
          gas_limit := latest.gasLimit
          gas_used := latest.gasUsed
          gas_utilization_percent := (latest.gasUsed : ℚ) / (latest.gasLimit : ℚ) * 100 }

/-- Body of the `try` block of `GET /analytics/network-stats`: fetch the
latest block; if its number is positive fetch the preceding block and set
`block_time` to the timestamp difference, otherwise keep the initial
`block_time = 0`. -/
def get_network_analytics_body (w3 : W3) : Except PyExc AnalyticsResp × List RpcCall :=
  match w3.get_block_latest with
  | .error m => (.error (.err m), [.getBlockLatest])
  | .ok latest =>
    if 0 < latest.number then
      match w3.get_block (latest.number - 1) with
      | .error m => (.error (.err m), [.getBlockLatest, .getBlock (latest.number - 1)])
      | .ok prev =>
        (mkAnalyticsResp latest ((latest.timestamp : Int) - (prev.timestamp : Int)),
         [.getBlockLatest, .getBlock (latest.number - 1)])
    else
      (mkAnalyticsResp latest 0, [.getBlockLatest])

/-- `GET /analytics/network-stats`: 503 guard, then the body under the
500-rewrapping `except`. -/
def get_network_analytics (w3? : Option W3) : Except HTTPError AnalyticsResp × List RpcCall :=
  match w3? with
  | none => (.error { status_code := 503, detail := NOT_CONNECTED }, [])
  | some w3 =>
    if w3.is_connected then tryWrap (get_network_analytics_body w3)
    else (.error { status_code := 503, detail := NOT_CONNECTED }, [])

/-! ### Concrete fixtures used by witnesses and counterexamples -/

/-- A well-formed 42-character hex address. -/
def addr42 : String := "0x1111111111111111111111111111111111111111"

/-- A second well-formed 42-character hex address. -/
def addr42b : String := "0x2222222222222222222222222222222222222222"

/-- A malformed address string. -/
def badAddr : String := "zzz"

/-- Latest block of the healthy fixture: number 5, timestamp 1000. -/
def blockA : Block :=
  { number := 5, timestamp := 1000, transactions := ["t1", "t2"],
    gasLimit := 30000000, gasUsed := 15000000 }

/-- Preceding block of the healthy fixture: number 4, timestamp 988. -/
def blockB : Block :=
  { number := 4, timestamp := 988, transactions := [],
    gasLimit := 30000000, gasUsed := 10000000 }

/-- A genesis block (number 0). -/
def blockG : Block :=
  { number := 0, timestamp := 500, transactions := ["t1"],
    gasLimit := 1000, gasUsed := 250 }

/-- A connected handle whose remote calls all succeed: balance 10^18 wei,
gas price 1 gwei, gas estimate 21000, blocks `blockA`/`blockB`; addresses
validate iff they have 42 characters; `to_wei` parses only "1.0". -/
def w3ok : W3 :=
  { is_connected := true
    block_number := .ok 5
    gas_price := .ok 1000000000
    get_balance := fun _ => .ok 1000000000000000000
    get_block_latest := .ok blockA
    get_block := fun n => if n = 4 then .ok blockB else .error ("block not found")
    estimate_gas := fun _ _ _ => .ok 21000
    is_address := fun a => a.length == 42
    to_wei := fun s => if s = "1.0" then .ok 1000000000000000000 else .error ("Invalid decimal value") }

/-- The healthy handle with a failed connectivity probe. -/
def w3down : W3 := { w3ok with is_connected := false }

/-- The healthy handle whose latest block is the genesis block. -/
def w3gen : W3 := { w3ok with get_block_latest := .ok blockG }

/-- The healthy handle whose `block_number` call raises. -/
def w3bn : W3 := { w3ok with block_number := .error ("boom") }

example : check_balance (some w3ok) { address := badAddr } =
    (.error { status_code := 500, detail := "400: Invalid address format" }, []) := by decide

example : from_wei_ether_str 1000000000000000000 = "1" := by decide

example : from_wei_ether_str 1500000000000000000 = "1.5" := by decide

example : from_wei_ether_str 1 = "1E-18" := by decide

example : from_wei_ether_str 123 = "1.23E-16" := by decide

example : from_wei_ether_str 1000000000000 = "0.000001" := by decide

example : from_wei_ether_str 100000000000 = "1E-7" := by decide

example : (get_network_analytics (some w3ok)).1 =
    .ok { latest_block_number := 5, latest_block_timestamp := 1000,
          latest_block_transactions := 2, average_block_time_seconds := 12,
          gas_limit := 30000000, gas_used := 15000000,
          gas_utilization_percent := 50 } := by
  simp [get_network_analytics, get_network_analytics_body, mkAnalyticsResp, tryWrap,
    w3ok, blockA, blockB]
  norm_num

/-! ### Helper lemmas about the decimal string model -/

theorem tzAux_ge (k : Nat) :
    ∀ fuel n, n ≤ fuel → n ≠ 0 → 10 ^ k ∣ n → k ≤ tzAux fuel n := by
  induction k with
  | zero => intro fuel n _ _ _; exact Nat.zero_le _
  | succ k ih =>
    intro fuel n hfn hn hdvd
    match fuel with
    | 0 => omega
    | f + 1 =>
      obtain ⟨m, rfl⟩ := hdvd
      have hm : m ≠ 0 := by rintro rfl; simp at hn
      have hpow : 0 < 10 ^ k := Nat.pos_pow_of_pos _ (by omega)
      have h2 : 10 ^ (k + 1) * m = 10 * (10 ^ k * m) := by ring
      have hmod : 10 ^ (k + 1) * m % 10 = 0 := by rw [h2]; exact Nat.mul_mod_right 10 _
      have hdiv : 10 ^ (k + 1) * m / 10 = 10 ^ k * m := by
        rw [h2]; exact Nat.mul_div_cancel_left _ (by omega)
      have hmpos : 0 < 10 ^ k * m := Nat.mul_pos hpow (Nat.pos_of_ne_zero hm)
      have hlt : 10 ^ (k + 1) * m / 10 < 10 ^ (k + 1) * m :=
        Nat.div_lt_self (Nat.pos_of_ne_zero hn) (by omega)
      have hle : 10 ^ (k + 1) * m / 10 ≤ f := by omega
      rw [tzAux, if_pos ⟨hn, hmod⟩, hdiv]
      rw [hdiv] at hle
      exact Nat.succ_le_succ (ih f _ hle (by omega) ⟨m, rfl⟩)

theorem le_tz_of_dvd (k n : Nat) (hn : n ≠ 0) (h : 10 ^ k ∣ n) : k ≤ tz n :=
  tzAux_ge k n n le_rfl hn h

theorem decStr_exp_zero (c : Nat) : decStr c 0 = toString c := by
  have h : (-6 : Int) ≤ 0 + ((toString c).length : Int) - 1 := by omega
  simp [decStr, h]
  intro hcon
  omega

theorem from_wei_ether_str_dvd (B : Nat) (h : 10 ^ 18 ∣ B) :
    from_wei_ether_str B = toString (B / 10 ^ 18) := by
  by_cases hB : B = 0
  · subst hB; decide
  · have h18 : 18 ≤ tz B := le_tz_of_dvd 18 B hB h
    rw [from_wei_ether_str, if_neg hB, from_wei_ether_dec]
    simp only [h18, if_pos]
    exact decStr_exp_zero _

/-! ### Claims -/

/-- C1: the claim says a malformed address makes balance-check and
gas-estimate return the InvalidInput error (HTTP 400) before any remote
call.  Evaluating the code at a failing input shows that no remote call
is made (the trace is empty) but the response is HTTP **500** with detail
"400: Invalid address format": the `HTTPException(400)` is raised inside
the `try` block and, being an `Exception` subclass, is caught by
`except Exception` and rewrapped as a 500. -/
theorem c1_malformed_address_gets_500_not_400 :
    check_balance (some w3ok) { address := badAddr } =
      (.error { status_code := 500, detail := "400: Invalid address format" }, []) ∧
    estimate_gas (some w3ok)
        { from_address := badAddr, to_address := addr42, amount := "1.0" } =
      (.error { status_code := 500, detail := "400: Invalid address format" }, []) ∧
    httpStatus (check_balance (some w3ok) { address := badAddr }).1 ≠ some 400 := by
  refine ⟨by decide, by decide, by decide⟩

/-- C2: for all non-negative integer gas estimate `g`, gas price `p` and
amount `a` (in wei), the gas-estimate operation succeeds with
`total_cost_over = (g * p + a) / 10^18` and
`transaction_cost_over = (g * p) / 10^18`, the two cost formulas reported
in the converted major unit, alongside the raw `gas_estimate`. -/
theorem c2_gas_costs (w3 : W3) (request : TransactionRequest) (a g p : Nat)
    (hc : w3.is_connected = true)
    (hf : w3.is_address request.from_address = true)
    (ht : w3.is_address request.to_address = true)
    (ha : w3.to_wei request.amount = .ok a)
    (hg : w3.estimate_gas request.from_address request.to_address a = .ok g)
    (hp : w3.gas_price = .ok p) :
    estimate_gas (some w3) request =
      (.ok { gas_estimate := g
             gas_price_gwei := (p : ℚ) / 10 ^ 9
             total_cost_over := ((g * p + a : Nat) : ℚ) / 10 ^ 18
             transaction_cost_over := ((g * p : Nat) : ℚ) / 10 ^ 18 },
       [.estimateGas request.from_address request.to_address a, .gasPrice]) := by
  simp [estimate_gas, hc, estimate_gas_body, hf, ht, ha, hg, hp, tryWrap,
    from_wei_gwei_q, from_wei_ether_q]

/-- C2 witness: with gas estimate 21000, gas price 10^9 wei and amount
10^18 wei, the total cost is 1.000021 OVER and the transaction cost is
0.000021 OVER. -/
theorem c2_gas_costs_witness :
    estimate_gas (some w3ok)
        { from_address := addr42, to_address := addr42b, amount := "1.0" } =
      (.ok { gas_estimate := 21000, gas_price_gwei := 1,
             total_cost_over := 1000021 / 1000000,
             transaction_cost_over := 21 / 1000000 },
       [.estimateGas addr42 addr42b 1000000000000000000, .gasPrice]) := by
  have h := c2_gas_costs w3ok
    { from_address := addr42, to_address := addr42b, amount := "1.0" }
    1000000000000000000 21000 1000000000 rfl (by decide) (by decide)
    (by decide) rfl rfl
  rw [h]
  norm_num

/-- C3: the gas-utilization percentage of the analytics operation equals
`gas_used / gas_limit * 100` for the latest block, and when `gas_limit`
is zero there is no guard: the `ZeroDivisionError` of the underlying
division escapes the dict construction and surfaces (through the blanket
`except`) as HTTP 500 with detail "division by zero". -/
theorem c3_gas_utilization (w3 : W3) (latest prev : Block)
    (hc : w3.is_connected = true)
    (hl : w3.get_block_latest = .ok latest)
    (hprev : w3.get_block (latest.number - 1) = .ok prev) :
    (latest.gasLimit ≠ 0 →
      Except.map AnalyticsResp.gas_utilization_percent
          (get_network_analytics (some w3)).1 =
        .ok ((latest.gasUsed : ℚ) / (latest.gasLimit : ℚ) * 100)) ∧
    (latest.gasLimit = 0 →
      (get_network_analytics (some w3)).1 =
        .error { status_code := 500, detail := DIV_BY_ZERO }) := by
  constructor
  · intro h0
    rcases Nat.eq_zero_or_pos latest.number with hn | hn
    · simp [get_network_analytics, hc, get_network_analytics_body, hl, hn,
        mkAnalyticsResp, h0, tryWrap, Except.map]
    · simp [get_network_analytics, hc, get_network_analytics_body, hl, hn,
        hprev, mkAnalyticsResp, h0, tryWrap, Except.map]
  · intro h0
    rcases Nat.eq_zero_or_pos latest.number with hn | hn
    · simp [get_network_analytics, hc, get_network_analytics_body, hl, hn,
        mkAnalyticsResp, h0, tryWrap, strExc]
    · simp [get_network_analytics, hc, get_network_analytics_body, hl, hn,
        hprev, mkAnalyticsResp, h0, tryWrap, strExc]

/-- C3 witness: with `gasUsed = 15000000` and `gasLimit = 30000000` the
reported utilization is 50 percent. -/
theorem c3_gas_utilization_witness :
    Except.map AnalyticsResp.gas_utilization_percent
        (get_network_analytics (some w3ok)).1 = .ok 50 := by
  have h := (c3_gas_utilization w3ok blockA blockB rfl rfl (by decide)).1 (by decide)
  rw [h]
  norm_num [blockA]

/-- C4: when the RPC handle is absent, or present but its connectivity
probe reports disconnected, each of the four non-health operations
returns HTTP 503 with the fixed detail string and issues no remote call
(empty RPC trace). -/
theorem c4_disconnected_503 (w3? : Option W3)
    (breq : BalanceRequest) (treq : TransactionRequest)
    (hd : ∀ w3, w3? = some w3 → w3.is_connected = false) :
    get_network_info w3? = (.error { status_code := 503, detail := NOT_CONNECTED }, []) ∧
    check_balance w3? breq = (.error { status_code := 503, detail := NOT_CONNECTED }, []) ∧
    estimate_gas w3? treq = (.error { status_code := 503, detail := NOT_CONNECTED }, []) ∧
    get_network_analytics w3? = (.error { status_code := 503, detail := NOT_CONNECTED }, []) := by
  cases w3? with
  | none => exact ⟨rfl, rfl, rfl, rfl⟩
  | some w3 =>
    have h := hd w3 rfl
    simp [get_network_info, check_balance, estimate_gas, get_network_analytics, h]

/-- C4 witness: a handle whose probe fails yields 503 and an empty trace
on all four operations. -/
theorem c4_disconnected_503_witness :
    get_network_info (some w3down) =
      (.error { status_code := 503, detail := NOT_CONNECTED }, []) ∧
    check_balance (some w3down) { address := addr42 } =
      (.error { status_code := 503, detail := NOT_CONNECTED }, []) ∧
    estimate_gas (some w3down)
        { from_address := addr42, to_address := addr42b, amount := "1.0" } =
      (.error { status_code := 503, detail := NOT_CONNECTED }, []) ∧
    get_network_analytics (some w3down) =
      (.error { status_code := 503, detail := NOT_CONNECTED }, []) :=
  c4_disconnected_503 (some w3down) { address := addr42 }
    { from_address := addr42, to_address := addr42b, amount := "1.0" }
    (fun w3 h => by cases h; rfl)

/-- C5 counterexample: with well-formed addresses, a connected handle and
the unparseable amount "xyz", the gas-estimate operation returns HTTP
**500** carrying the parse exception's message — not the claimed 400:
the `to_wei` exception is caught by the blanket `except Exception` and
mapped to 500. -/
theorem c5_unparseable_amount_counterexample :
    (estimate_gas (some w3ok)
        { from_address := addr42, to_address := addr42b, amount := "xyz" }).1 =
      .error { status_code := 500, detail := "Invalid decimal value" } ∧
    httpStatus (estimate_gas (some w3ok)
        { from_address := addr42, to_address := addr42b, amount := "xyz" }).1 ≠ some 400 := by
  refine ⟨by decide, by decide⟩

/-- C5 amended: for every amount string that does not parse as a decimal
(well-formed addresses, connected handle), gas-estimate fails with HTTP
500 whose detail is the parse exception's message, before any remote
call is issued. -/
theorem c5_unparseable_amount_500 (w3 : W3) (request : TransactionRequest) (m : String)
    (hc : w3.is_connected = true)
    (hf : w3.is_address request.from_address = true)
    (ht : w3.is_address request.to_address = true)
    (ha : w3.to_wei request.amount = .error m) :
    estimate_gas (some w3) request = (.error { status_code := 500, detail := m }, []) := by
  simp [estimate_gas, hc, estimate_gas_body, hf, ht, ha, tryWrap, strExc]

/-- C5 amended witness: amount "xyz" yields 500 with the parser's
message and an empty RPC trace. -/
theorem c5_unparseable_amount_500_witness :
    estimate_gas (some w3ok)
        { from_address := addr42, to_address := addr42b, amount := "xyz" } =
      (.error { status_code := 500, detail := "Invalid decimal value" }, []) :=
  c5_unparseable_amount_500 w3ok
    { from_address := addr42, to_address := addr42b, amount := "xyz" }
    "Invalid decimal value" rfl (by decide) (by decide) (by decide)

/-- C6: the health check is total — it returns `{status, connected,
chain_id}` for every state of the handle, reporting `connected = false`
(rather than erroring) when the handle is absent or its probe fails, and
for a connected handle it returns exactly
`{status := "healthy", over_protocol_connected := true, chain_id := 54176}`. -/
theorem c6_health_check (w3? : Option W3) (w3c w3d : W3)
    (hcon : w3c.is_connected = true) (hdis : w3d.is_connected = false) :
    (health_check w3?).status = "healthy" ∧
    (health_check w3?).chain_id = 54176 ∧
    (health_check none).over_protocol_connected = false ∧
    (health_check (some w3d)).over_protocol_connected = false ∧
    health_check (some w3c) =
      { status := "healthy", over_protocol_connected := true, chain_id := 54176 } := by
  cases w3? <;> simp [health_check, CHAIN_ID, hcon, hdis]

/-- C6 witness: instantiated at an absent handle, the connected fixture
and the disconnected fixture. -/
theorem c6_health_check_witness :
    (health_check none).status = "healthy" ∧
    (health_check none).chain_id = 54176 ∧
    (health_check none).over_protocol_connected = false ∧
    (health_check (some w3down)).over_protocol_connected = false ∧
    health_check (some w3ok) =
      { status := "healthy", over_protocol_connected := true, chain_id := 54176 } :=
  c6_health_check none w3ok w3down rfl rfl

/-- C7: the analytics operation's `average_block_time_seconds` is the
timestamp of the latest block minus the timestamp of the immediately
preceding block — a two-block delta. -/
theorem c7_block_time (w3 : W3) (latest prev : Block)
    (hc : w3.is_connected = true)
    (hl : w3.get_block_latest = .ok latest)
    (hn : 0 < latest.number)
    (hprev : w3.get_block (latest.number - 1) = .ok prev)
    (hgl : latest.gasLimit ≠ 0) :
    Except.map AnalyticsResp.average_block_time_seconds
        (get_network_analytics (some w3)).1 =
      .ok ((latest.timestamp : Int) - (prev.timestamp : Int)) := by
  simp [get_network_analytics, hc, get_network_analytics_body, hl, hn, hprev,
    mkAnalyticsResp, hgl, tryWrap, Except.map]

/-- C7 witness: timestamps 1000 and 988 give a reported average block
time of 12 seconds. -/
theorem c7_block_time_witness :
    Except.map AnalyticsResp.average_block_time_seconds
        (get_network_analytics (some w3ok)).1 = .ok 12 := by
  have h := c7_block_time w3ok blockA blockB rfl rfl (by decide) (by decide) (by decide)
  rw [h]
  decide

/-- C8 counterexample: with a mocked balance of 10^18 wei, the returned
`balance_over` string is "1" — Python's `Decimal` prints an exact
integer quotient with no fractional part — and not the "1.0" the claim
states. -/
theorem c8_balance_over_counterexample :
    Except.map BalanceResp.balance_over
        (check_balance (some w3ok) { address := addr42 }).1 = .ok "1" ∧
    Except.map BalanceResp.balance_over
        (check_balance (some w3ok) { address := addr42 }).1 ≠ .ok "1.0" := by
  refine ⟨by decide, by decide⟩

/-- C8 amended: for a well-formed address with balance `B` wei, the
operation returns `balance_wei` as the decimal string of `B` and
`balance_over` as Python's `Decimal` string of `B / 10^18`; when `B` is
a whole multiple of 10^18 the latter is the bare integer string of
`B / 10^18` (so 10^18 wei yields "1", not "1.0"), alongside the latest
block's timestamp. -/
theorem c8_balance_strings (w3 : W3) (request : BalanceRequest) (B : Nat) (blk : Block)
    (hc : w3.is_connected = true)
    (haddr : w3.is_address request.address = true)
    (hb : w3.get_balance request.address = .ok B)
    (hblk : w3.get_block_latest = .ok blk)
    (hdvd : 10 ^ 18 ∣ B) :
    (check_balance (some w3) request).1 =
      .ok { address := request.address
            balance_over := toString (B / 10 ^ 18)
            balance_wei := toString B
            timestamp := blk.timestamp } := by
  have hs := from_wei_ether_str_dvd B hdvd
  simp [check_balance, hc, check_balance_body, haddr, hb, hblk, tryWrap, hs]

/-- C8 amended witness: balance 10^18 wei yields
`balance_over = "1"` and `balance_wei = "1000000000000000000"`. -/
theorem c8_balance_strings_witness :
    (check_balance (some w3ok) { address := addr42 }).1 =
      .ok { address := addr42, balance_over := "1",
            balance_wei := "1000000000000000000", timestamp := 1000 } := by
  have h := c8_balance_strings w3ok { address := addr42 }
    1000000000000000000 blockA rfl (by decide) rfl rfl ⟨1, by norm_num⟩
  rw [h]
  decide

/-- C9: every exception raised by the remote-call layer inside
network-info, balance-check, gas-estimate or network-analytics surfaces
as HTTP 500 whose detail is the exception's message verbatim.  The
conjunction covers every remote call site of the four operations. -/
theorem c9_upstream_500_verbatim (w3 : W3) (m : String)
    (breq : BalanceRequest) (treq : TransactionRequest)
    (n a g : Nat) (blk : Block)
    (hc : w3.is_connected = true) :
    (w3.block_number = .error m →
      (get_network_info (some w3)).1 = .error { status_code := 500, detail := m }) ∧
    (w3.block_number = .ok n → w3.gas_price = .error m →
      (get_network_info (some w3)).1 = .error { status_code := 500, detail := m }) ∧
    (w3.is_address breq.address = true → w3.get_balance breq.address = .error m →
      (check_balance (some w3) breq).1 = .error { status_code := 500, detail := m }) ∧
    (w3.is_address breq.address = true → w3.get_balance breq.address = .ok a →
      w3.get_block_latest = .error m →
      (check_balance (some w3) breq).1 = .error { status_code := 500, detail := m }) ∧
    (w3.is_address treq.from_address = true → w3.is_address treq.to_address = true →
      w3.to_wei treq.amount = .ok a →
      w3.estimate_gas treq.from_address treq.to_address a = .error m →
      (estimate_gas (some w3) treq).1 = .error { status_code := 500, detail := m }) ∧
    (w3.is_address treq.from_address = true → w3.is_address treq.to_address = true →
      w3.to_wei treq.amount = .ok a →
      w3.estimate_gas treq.from_address treq.to_address a = .ok g →
      w3.gas_price = .error m →
      (estimate_gas (some w3) treq).1 = .error { status_code := 500, detail := m }) ∧
    (w3.get_block_latest = .error m →
      (get_network_analytics (some w3)).1 = .error { status_code := 500, detail := m }) ∧
    (w3.get_block_latest = .ok blk → 0 < blk.number →
      w3.get_block (blk.number - 1) = .error m →
      (get_network_analytics (some w3)).1 = .error { status_code := 500, detail := m }) := by
  refine ⟨?_, ?_, ?_, ?_, ?_, ?_, ?_, ?_⟩
  · intro h1
    simp [get_network_info, hc, get_network_info_body, h1, tryWrap, strExc]
  · intro h1 h2
    simp [get_network_info, hc, get_network_info_body, h1, h2, tryWrap, strExc]
  · intro h1 h2
    simp [check_balance, hc, check_balance_body, h1, h2, tryWrap, strExc]
  · intro h1 h2 h3
    simp [check_balance, hc, check_balance_body, h1, h2, h3, tryWrap, strExc]
  · intro h1 h2 h3 h4
    simp [estimate_gas, hc, estimate_gas_body, h1, h2, h3, h4, tryWrap, strExc]
  · intro h1 h2 h3 h4 h5
    simp [estimate_gas, hc, estimate_gas_body, h1, h2, h3, h4, h5, tryWrap, strExc]
  · intro h1
    simp [get_network_analytics, hc, get_network_analytics_body, h1, tryWrap, strExc]
  · intro h1 h2 h3
    simp [get_network_analytics, hc, get_network_analytics_body, h1, h2, h3, tryWrap, strExc]

/-- C9 witness: a `block_number` call that raises with message "boom"
makes network-info fail with HTTP 500 and detail "boom". -/
theorem c9_upstream_500_verbatim_witness :
    (get_network_info (some w3bn)).1 = .error { status_code := 500, detail := "boom" } :=
  (c9_upstream_500_verbatim w3bn "boom" { address := addr42 }
    { from_address := addr42, to_address := addr42b, amount := "1.0" }
    0 0 0 blockA rfl).1 rfl

/-- C10: when the latest block is the genesis block (number 0), the
analytics operation performs no previous-block fetch (the RPC trace
holds only the latest-block call) and returns
`average_block_time_seconds = 0` together with all other fields computed
from the latest block. -/
theorem c10_genesis_block_time_zero (w3 : W3) (latest : Block)
    (hc : w3.is_connected = true)
    (hl : w3.get_block_latest = .ok latest)
    (h0 : latest.number = 0)
    (hgl : latest.gasLimit ≠ 0) :
    get_network_analytics (some w3) =
      (.ok { latest_block_number := latest.number
             latest_block_timestamp := latest.timestamp
             latest_block_transactions := latest.transactions.length
             average_block_time_seconds := 0
             gas_limit := latest.gasLimit
             gas_used := latest.gasUsed
             gas_utilization_percent :=
               (latest.gasUsed : ℚ) / (latest.gasLimit : ℚ) * 100 },
       [.getBlockLatest]) := by
  simp [get_network_analytics, hc, get_network_analytics_body, hl, h0,
    mkAnalyticsResp, hgl, tryWrap]

/-- C10 witness: a genesis latest block with timestamp 500, one
transaction, gasLimit 1000 and gasUsed 250 yields block time 0, a
single-call trace and utilization 25 percent. -/
theorem c10_genesis_block_time_zero_witness :
    get_network_analytics (some w3gen) =
      (.ok { latest_block_number := 0, latest_block_timestamp := 500,
             latest_block_transactions := 1, average_block_time_seconds := 0,
             gas_limit := 1000, gas_used := 250,
             gas_utilization_percent := 25 },
       [.getBlockLatest]) := by
  have h := c10_genesis_block_time_zero w3gen blockG rfl rfl (by decide) (by decide)
  rw [h]
  norm_num [blockG]
